import Mathlib

/-!
# Verification of the Chat-Bot-for-Y-files streaming transport and CLI

Shallow embedding of the session-managing SSE transport
(`src/transport/sseTransport.ts`, class `SSETransportServer`) and of the
command-line parser (`src/utils/cli.ts`, function `parseArgs`), together
with proofs settling the specification claims about them.

The JavaScript `Map` objects `sessions` and `connections` are modelled as
association lists with JS `Map` semantics: `set` replaces the entry in
place when the key is present and appends otherwise, `get` returns the
stored value or nothing, `delete` removes the entry for the key, and
`size` counts entries.  A JS `Map` never holds two entries with the same
key, so the representation invariant is that the key list is duplicate
free; it is stated explicitly where a proof needs it.
-/

/-! ## JS `Map` model -/

/-- JS `Map.get`: the value stored under `k`, or `none`. -/
def mapGet {α : Type} : List (String × α) → String → Option α
  | [], _ => none
  | p :: m, k => if p.1 = k then some p.2 else mapGet m k

/-- JS `Map.set`: replace the entry in place when `k` is present, else append. -/
def mapSet {α : Type} : List (String × α) → String → α → List (String × α)
  | [], k, v => [(k, v)]
  | p :: m, k, v => if p.1 = k then (k, v) :: m else p :: mapSet m k v

/-- JS `Map.delete`: remove the entry stored under `k` (no-op when absent). -/
def mapDelete {α : Type} (m : List (String × α)) (k : String) :
    List (String × α) :=
  m.filter (fun p => p.1 ≠ k)

/-- JS `Map.size`. -/
def mapSize {α : Type} (m : List (String × α)) : Nat :=
  m.length

/-- The key list of a map, used to state the unique-keys representation
invariant of a JS `Map`. -/
def mapKeys {α : Type} (m : List (String × α)) : List String :=
  m.map Prod.fst

theorem mapGet_mapSet_self {α : Type} (m : List (String × α)) (k : String) (v : α) :
    mapGet (mapSet m k v) k = some v := by
  induction m with
  | nil => simp [mapGet, mapSet]
  | cons p m ih =>
    by_cases h : p.1 = k
    · simp [mapGet, mapSet, h]
    · simp [mapGet, mapSet, h, ih]

theorem mapGet_mapSet_ne {α : Type} (m : List (String × α)) (k k' : String)
    (v : α) (h : k' ≠ k) : mapGet (mapSet m k v) k' = mapGet m k' := by
  induction m with
  | nil => simp [mapGet, mapSet, Ne.symm h]
  | cons p m ih =>
    by_cases hp : p.1 = k
    · have h1 : ¬(k = k') := fun hc => h hc.symm
      have h2 : ¬(p.1 = k') := by rw [hp]; exact fun hc => h hc.symm
      rw [show mapSet (p :: m) k v = (k, v) :: m by simp [mapSet, hp]]
      simp [mapGet, h1, h2]
    · rw [show mapSet (p :: m) k v = p :: mapSet m k v by simp [mapSet, hp]]
      by_cases hp' : p.1 = k'
      · simp [mapGet, hp']
      · simp [mapGet, hp', ih]

theorem mapGet_mapDelete_self {α : Type} (m : List (String × α)) (k : String) :
    mapGet (mapDelete m k) k = none := by
  induction m with
  | nil => simp [mapGet, mapDelete]
  | cons p m ih =>
    by_cases h : p.1 = k
    · simpa [mapDelete, List.filter_cons, h] using ih
    · simpa [mapGet, mapDelete, List.filter_cons, h] using ih

theorem mapGet_mapDelete_ne {α : Type} (m : List (String × α)) (k k' : String)
    (h : k' ≠ k) : mapGet (mapDelete m k) k' = mapGet m k' := by
  induction m with
  | nil => simp [mapGet, mapDelete]
  | cons p m ih =>
    by_cases hp : p.1 = k
    · have hp' : p.1 ≠ k' := by rw [hp]; exact Ne.symm h
      rw [show mapDelete (p :: m) k = mapDelete m k by
        simp [mapDelete, List.filter_cons, hp]]
      simp [mapGet, hp', ih]
    · rw [show mapDelete (p :: m) k = p :: mapDelete m k by
        simp [mapDelete, List.filter_cons, hp]]
      by_cases hp' : p.1 = k'
      · simp [mapGet, hp']
      · simp [mapGet, hp', ih]

theorem mapDelete_mapDelete {α : Type} (m : List (String × α)) (k : String) :
    mapDelete (mapDelete m k) k = mapDelete m k := by
  unfold mapDelete
  rw [List.filter_filter]
  simp

theorem mapDelete_of_absent {α : Type} (m : List (String × α)) (k : String)
    (h : mapGet m k = none) : mapDelete m k = m := by
  induction m with
  | nil => rfl
  | cons p m ih =>
    by_cases hp : p.1 = k
    · simp [mapGet, hp] at h
    · simp only [mapGet, if_neg hp] at h
      simp [mapDelete, List.filter_cons, hp] at ih ⊢
      exact ih h

theorem mapKeys_mapSet_absent {α : Type} (m : List (String × α)) (k : String)
    (v : α) (h : mapGet m k = none) : mapKeys (mapSet m k v) = mapKeys m ++ [k] := by
  induction m with
  | nil => simp [mapKeys, mapSet]
  | cons p m ih =>
    by_cases hp : p.1 = k
    · simp [mapGet, hp] at h
    · simp only [mapGet, if_neg hp] at h
      simp [mapKeys, mapSet, hp] at ih ⊢
      exact ih h

theorem mapGet_eq_none_of_not_mem_keys {α : Type} (m : List (String × α))
    (k : String) (h : k ∉ mapKeys m) : mapGet m k = none := by
  induction m with
  | nil => rfl
  | cons p m ih =>
    rw [show mapKeys (p :: m) = p.1 :: mapKeys m from rfl] at h
    have h1 : k ≠ p.1 := fun hc => h (hc ▸ List.mem_cons_self _ _)
    have h2 : k ∉ mapKeys m := fun hc => h (List.mem_cons_of_mem _ hc)
    simp [mapGet, Ne.symm h1, ih h2]

theorem mapSize_mapDelete_present {α : Type} (m : List (String × α)) (k : String)
    (hnd : (mapKeys m).Nodup) (h : (mapGet m k).isSome) :
    mapSize (mapDelete m k) = mapSize m - 1 := by
  induction m with
  | nil => simp [mapGet] at h
  | cons p m ih =>
    simp only [mapKeys, List.map_cons, List.nodup_cons] at hnd
    by_cases hp : p.1 = k
    · have habs : mapGet m k = none := by
        apply mapGet_eq_none_of_not_mem_keys
        rw [← hp]
        exact fun hc => hnd.1 (by simpa [mapKeys] using hc)
      rw [show mapDelete (p :: m) k = mapDelete m k by
        simp [mapDelete, List.filter_cons, hp]]
      rw [mapDelete_of_absent m k habs]
      simp [mapSize]
    · simp only [mapGet, if_neg hp] at h
      have hlen := ih hnd.2 h
      have hpos : 0 < mapSize m := by
        cases m with
        | nil => simp [mapGet] at h
        | cons q m' => simp [mapSize]
      rw [show mapDelete (p :: m) k = p :: mapDelete m k by
        simp [mapDelete, List.filter_cons, hp]]
      simp only [mapSize, List.length_cons] at hlen hpos ⊢
      omega

theorem mapKeys_mapDelete {α : Type} (m : List (String × α)) (k : String) :
    mapKeys (mapDelete m k) = (mapKeys m).filter (fun s => s ≠ k) := by
  induction m with
  | nil => rfl
  | cons p m ih =>
    by_cases hp : p.1 = k
    · simp [mapKeys, mapDelete, List.filter_cons, hp] at ih ⊢
      exact ih
    · simp [mapKeys, mapDelete, List.filter_cons, hp] at ih ⊢
      exact ih

/-! ## Transport embedding (`src/transport/sseTransport.ts`)

The server state is the pair of JS `Map`s held by `SSETransportServer`:
`sessions : Map<string, SSEServerTransport>` and
`connections : Map<string, any>` (the MCP connection returned by
`serverInstance.connect(transport)`).  Object identity of the
`SSEServerTransport` and `McpServer` objects allocated by the GET path is
modelled by numbering the allocations with a counter `nextId`: each GET
consumes two fresh numbers, one for the transport and one for the server
instance it is connected to. -/

/-- An `SSEServerTransport` object: its identity `tid` and the id of the
`McpServer` instance connected to it by `serverInstance.connect(transport)`
(none before `connect`). -/
structure Transport where
  tid : Nat
  boundInstance : Option Nat
deriving DecidableEq, Repr

/-- The mutable state of one `SSETransportServer`. -/
structure ServerState where
  sessions : List (String × Transport)
  connections : List (String × Nat)
  nextId : Nat
deriving DecidableEq, Repr

/-- Fresh `SSETransportServer` state: both maps start empty. -/
def initState : ServerState :=
  { sessions := [], connections := [], nextId := 0 }

/-- HTTP method of a request reaching `handleSSEConnection`. -/
inductive Method where
  | GET
  | POST
  | other
deriving DecidableEq, Repr

/-- The part of `http.IncomingMessage`/`URL` the handler inspects: the
method and `url.searchParams.get('sessionId')`. -/
structure Request where
  method : Method
  sessionId : Option String
deriving DecidableEq, Repr

/-- The part of `http.ServerResponse` the handler inspects:
`res.headersSent` at entry. -/
structure ResponseState where
  headersSent : Bool
deriving DecidableEq, Repr

/-- Failure injection for the calls the handler makes that can throw:
`getBeforeRegister` is a throw on the GET path before
`this.sessions.set(...)` runs (e.g. in `res.setHeader` or in
`new SSEServerTransport`); `postProcessing sentBefore` is a throw inside
`transport.handlePostMessage(req, res)`, with `sentBefore` recording
whether that call wrote the response head before throwing. -/
inductive FailurePoint where
  | noFailure
  | getBeforeRegister
  | postProcessing (sentBefore : Bool)
deriving DecidableEq, Repr

/-- Observable outcome of one `handleSSEConnection` call: the state after
the call, the statuses of the `res.writeHead` calls the handler body
issued (in order), the server instance the POST payload was handed to (if
any), and whether the call closed any session's MCP connection. -/
structure HandlerResult where
  state : ServerState
  writes : List Nat
  delivered : Option Nat
  closedConn : Bool
deriving DecidableEq, Repr

/-- Function `SSETransportServer.handleSSEConnection` (sseTransport.ts lines
99–233).  `newSid` stands for the fresh `transport.sessionId` the SDK
generates on the GET path. -/
def handleSSEConnection (st : ServerState) (req : Request) (res : ResponseState)
    (newSid : String) (fp : FailurePoint) : HandlerResult :=
  match req.method with
  | .POST =>
    match req.sessionId with
    | none =>
      -- lines 107–112: writeHead(400) with no headersSent check
      { state := st, writes := [400], delivered := none, closedConn := false }
    | some sid =>
      match mapGet st.sessions sid with
      | none =>
        -- lines 114–120: writeHead(404) with no headersSent check
        { state := st, writes := [404], delivered := none, closedConn := false }
      | some t =>
        -- lines 122–137: transport.handlePostMessage(req, res) in try/catch
        match fp with
        | .postProcessing sentBefore =>
          if res.headersSent || sentBefore then
            { state := st, writes := [], delivered := t.boundInstance,
              closedConn := false }
          else
            { state := st, writes := [500], delivered := t.boundInstance,
              closedConn := false }
        | _ =>
          { state := st, writes := [], delivered := t.boundInstance,
            closedConn := false }
  | .GET =>
    match fp with
    | .getBeforeRegister =>
      -- outer catch, lines 219–232: writeHead(500) only if !res.headersSent
      if res.headersSent then
        { state := st, writes := [], delivered := none, closedConn := false }
      else
        { state := st, writes := [500], delivered := none, closedConn := false }
    | _ =>
      -- lines 139–212: create transport, sessions.set, new McpServer,
      -- connect, connections.set
      let tid := st.nextId
      let iid := st.nextId + 1
      let t : Transport := { tid := tid, boundInstance := some iid }
      { state :=
          { sessions := mapSet st.sessions newSid t,
            connections := mapSet st.connections newSid iid,
            nextId := st.nextId + 2 },
        writes := [], delivered := none, closedConn := false }
  | .other =>
    -- lines 214–217: writeHead(405) with no headersSent check
    { state := st, writes := [405], delivered := none, closedConn := false }

/-- The disconnect callback registered on the GET path (identical body on
`req.on("close")`, `req.on("error")` and `res.on("error")`, lines
183–212): delete the session, then close and delete the connection if one
is stored.  Returns the state afterwards and whether `conn.close()` was
called. -/
def teardown (st : ServerState) (sid : String) : ServerState × Bool :=
  let sessions' := mapDelete st.sessions sid
  match mapGet st.connections sid with
  | some _ =>
    ({ st with sessions := sessions',
               connections := mapDelete st.connections sid }, true)
  | none =>
    ({ st with sessions := sessions' }, false)

/-- The fields of the static `serverConfig` object
(src/config/serverConfig.ts, among the unnamed sources) that the SSE
transport's auxiliary endpoints report. -/
structure ServerConfig where
  name : String
  version : String
deriving DecidableEq, Repr

/-- The `serverConfig` constant of serverConfig.ts: name
`"MCP Documentation Server"`, version `"1.0.0"`. -/
def serverConfig : ServerConfig :=
  { name := "MCP Documentation Server", version := "1.0.0" }

/-- The JSON object returned by the `GET /health` route. -/
structure HealthResponse where
  status : String
  server : String
  version : String
  timestamp : String
  transport : String
  activeSessions : Nat
deriving DecidableEq, Repr

/-- The `GET /health` route handler (sseTransport.ts lines 51–60), which
reports `serverConfig.name` and `serverConfig.version`; `now` stands for
`new Date().toISOString()`. -/
def healthHandler (st : ServerState) (now : String) : HealthResponse :=
  { status := "healthy",
    server := serverConfig.name,
    version := serverConfig.version,
    timestamp := now,
    transport := "sse",
    activeSessions := mapSize st.sessions }

/-- State after one successful push-channel open (GET) with generated
session id `sid`. -/
def openChannel (st : ServerState) (sid : String) : ServerState :=
  (handleSSEConnection st { method := .GET, sessionId := none }
    { headersSent := false } sid .noFailure).state

/-- Iterated successful opens. -/
def openAll (st : ServerState) (sids : List String) : ServerState :=
  sids.foldl openChannel st

/-- Iterated disconnects. -/
def teardownAll (st : ServerState) (sids : List String) : ServerState :=
  sids.foldl (fun s k => (teardown s k).1) st

/-! ## CLI embedding (`src/utils/cli.ts`)

`parseArgs` loops over the argument array; each iteration switches on
`arg.split("=")[0]` and either updates the options object, throws, or
ignores the argument.  The loop body is embedded as `parseStep` and the
loop as `parseArgsFrom`; a thrown `Error` is an `Except.error`. -/

/-- The `CLIOptions` object of cli.ts: `transport` defaults to `"stdio"`;
`port`, `host` and `help` are optional fields. -/
structure CLIOptions where
  transport : String
  port : Option Int
  host : Option String
  help : Bool
deriving DecidableEq, Repr

/-- The options object as initialized at the top of `parseArgs`. -/
def cliDefault : CLIOptions :=
  { transport := "stdio", port := none, host := none, help := false }

/-- The `Error`s `parseArgs` can throw, by message shape. -/
inductive CLIError where
  | invalidTransport (t : Option String)
  | invalidPort (arg : String)
  | unknownOption (arg : String)
deriving DecidableEq, Repr

/-- JS `arg.split("=")` over the character list (split on every `=`). -/
def splitEqAux : List Char → List Char → List (List Char)
  | [], acc => [acc.reverse]
  | c :: cs, acc =>
    if c = '=' then acc.reverse :: splitEqAux cs []
    else splitEqAux cs (c :: acc)

/-- JS `arg.split("=")`. -/
def jsSplitEq (s : String) : List String :=
  (splitEqAux s.data []).map String.mk

/-- JS `arg.split("=")[0]` (JS split always yields at least one element). -/
def argKey (arg : String) : String :=
  (jsSplitEq arg).headD ""

/-- JS `arg.split("=")[1]`; `none` models JS `undefined`. -/
def argValue (arg : String) : Option String :=
  (jsSplitEq arg)[1]?

/-- JS `arg.startsWith("-")`. -/
def startsWithDash (s : String) : Bool :=
  match s.data with
  | [] => false
  | c :: _ => c = '-'

/-- Numeric value of a list of decimal digit characters. -/
def digitsVal (ds : List Char) : Nat :=
  ds.foldl (fun acc c => acc * 10 + (c.toNat - 48)) 0

/-- JS `parseInt(v, 10)`: skip leading whitespace, honour an optional
sign, read leading digits; `none` models `NaN` (also the result of
`parseInt(undefined, 10)`). -/
def jsParseInt (v : Option String) : Option Int :=
  match v with
  | none => none
  | some s =>
    match s.data.dropWhile (fun c => c == ' ' || c == '\t') with
    | '-' :: rest =>
      let ds := rest.takeWhile Char.isDigit
      if ds.isEmpty then none else some (-(digitsVal ds : Int))
    | '+' :: rest =>
      let ds := rest.takeWhile Char.isDigit
      if ds.isEmpty then none else some (digitsVal ds : Int)
    | cs =>
      let ds := cs.takeWhile Char.isDigit
      if ds.isEmpty then none else some (digitsVal ds : Int)

/-- Result of one iteration of the `parseArgs` loop. -/
inductive StepResult where
  | cont (opts : CLIOptions)
  | fail (e : CLIError)
deriving DecidableEq, Repr

/-- One iteration of the `parseArgs` loop (cli.ts lines 13–46): the
`switch` on `arg.split("=")[0]`. -/
def parseStep (arg : String) (opts : CLIOptions) : StepResult :=
  let key := argKey arg
  if key = "--transport" ∨ key = "-t" then
    match argValue arg with
    | some t =>
      if t = "stdio" ∨ t = "sse" then .cont { opts with transport := t }
      else .fail (.invalidTransport (some t))
    | none => .fail (.invalidTransport none)
  else if key = "--port" ∨ key = "-p" then
    match jsParseInt (argValue arg) with
    | some p =>
      if p < 1 ∨ 65535 < p then .fail (.invalidPort arg)
      else .cont { opts with port := some p }
    | none => .fail (.invalidPort arg)
  else if key = "--help" then
    .cont { opts with help := true }
  else if startsWithDash arg then
    .fail (.unknownOption arg)
  else
    .cont opts

/-- The `parseArgs` loop from a given options object. -/
def parseArgsFrom : List String → CLIOptions → Except CLIError CLIOptions
  | [], opts => .ok opts
  | arg :: rest, opts =>
    match parseStep arg opts with
    | .cont opts' => parseArgsFrom rest opts'
    | .fail e => .error e

/-- Function `parseArgs` (cli.ts lines 8–49). -/
def parseArgs (args : List String) : Except CLIError CLIOptions :=
  parseArgsFrom args cliDefault

instance {ε α : Type} [DecidableEq ε] [DecidableEq α] : DecidableEq (Except ε α)
  | .ok a, .ok b =>
    if h : a = b then isTrue (by rw [h])
    else isFalse (by intro hc; cases hc; exact h rfl)
  | .ok _, .error _ => isFalse (by intro hc; cases hc)
  | .error _, .ok _ => isFalse (by intro hc; cases hc)
  | .error e, .error f =>
    if h : e = f then isTrue (by rw [h])
    else isFalse (by intro hc; cases hc; exact h rfl)

example : parseArgs ["--host"] = .error (.unknownOption "--host") := by decide
example : parseArgs ["--host=0.0.0.0"] = .error (.unknownOption "--host=0.0.0.0") := by decide
example : parseArgs ["--transport=sse", "--port=8080"] =
    .ok { transport := "sse", port := some 8080, host := none, help := false } := by decide
example : parseArgs ["--transport=bad"] = .error (.invalidTransport (some "bad")) := by decide
example : parseArgs ["--port"] = .error (.invalidPort "--port") := by decide
example : parseArgs ["whatever"] = .ok cliDefault := by decide

/-! ## Session lifecycle lemmas -/

theorem teardown_sessions (st : ServerState) (sid : String) :
    (teardown st sid).1.sessions = mapDelete st.sessions sid := by
  unfold teardown
  cases mapGet st.connections sid <;> rfl

theorem mapKeys_mapSet_present {α : Type} (m : List (String × α)) (k : String)
    (v : α) (h : (mapGet m k).isSome) : mapKeys (mapSet m k v) = mapKeys m := by
  induction m with
  | nil => simp [mapGet] at h
  | cons p m ih =>
    by_cases hp : p.1 = k
    · rw [show mapSet (p :: m) k v = (k, v) :: m by simp [mapSet, hp]]
      simp [mapKeys, hp]
    · simp only [mapGet, if_neg hp] at h
      rw [show mapSet (p :: m) k v = p :: mapSet m k v by simp [mapSet, hp]]
      simp [mapKeys] at ih ⊢
      exact ih h

theorem mapSize_eq_keys_length {α : Type} (m : List (String × α)) :
    mapSize m = (mapKeys m).length := by
  simp [mapSize, mapKeys]

theorem mapGet_isSome_of_mem_keys {α : Type} (m : List (String × α))
    (k : String) (h : k ∈ mapKeys m) : (mapGet m k).isSome := by
  induction m with
  | nil => simp [mapKeys] at h
  | cons p m ih =>
    by_cases hp : p.1 = k
    · simp [mapGet, hp]
    · rw [show mapKeys (p :: m) = p.1 :: mapKeys m from rfl] at h
      cases h with
      | head => exact absurd rfl hp
      | tail _ h' => simp [mapGet, hp, ih h']

/-- Claim C1: for every registered session, teardown removes the session's
entries from the sessions and connections maps (exactly one registry entry
disappears) and closes its bound connection exactly when one is stored; a
second teardown for the same session id is a safe no-op that leaves the
state unchanged and closes nothing, so teardown takes effect exactly once
even if both the "close" and an "error" signal fire. -/
theorem C1_teardown_exactly_once (st : ServerState) (sid : String)
    (hnd : (mapKeys st.sessions).Nodup)
    (hpresent : (mapGet st.sessions sid).isSome = true) :
    mapGet (teardown st sid).1.sessions sid = none ∧
    mapGet (teardown st sid).1.connections sid = none ∧
    mapSize (teardown st sid).1.sessions = mapSize st.sessions - 1 ∧
    ((teardown st sid).2 = true ↔ (mapGet st.connections sid).isSome = true) ∧
    teardown (teardown st sid).1 sid = ((teardown st sid).1, false) := by
  cases hc : mapGet st.connections sid with
  | none =>
    refine ⟨?_, ?_, ?_, ?_, ?_⟩
    · simp only [teardown, hc]
      exact mapGet_mapDelete_self _ _
    · simp only [teardown, hc]
    · simp only [teardown, hc]
      exact mapSize_mapDelete_present _ _ hnd hpresent
    · simp [teardown, hc]
    · simp [teardown, hc, mapDelete_mapDelete]
  | some c =>
    refine ⟨?_, ?_, ?_, ?_, ?_⟩
    · simp only [teardown, hc]
      exact mapGet_mapDelete_self _ _
    · simp only [teardown, hc]
      exact mapGet_mapDelete_self _ _
    · simp only [teardown, hc]
      exact mapSize_mapDelete_present _ _ hnd hpresent
    · simp [teardown, hc]
    · simp [teardown, hc, mapGet_mapDelete_self, mapDelete_mapDelete]

/-- Concrete instance of claim C1: one session `"a"` opened from the fresh
state, then torn down twice. -/
theorem C1_witness :
    (mapKeys (openChannel initState "a").sessions).Nodup ∧
    (mapGet (openChannel initState "a").sessions "a").isSome = true ∧
    (mapGet (teardown (openChannel initState "a") "a").1.sessions "a" = none ∧
     mapGet (teardown (openChannel initState "a") "a").1.connections "a" = none ∧
     mapSize (teardown (openChannel initState "a") "a").1.sessions =
       mapSize (openChannel initState "a").sessions - 1 ∧
     ((teardown (openChannel initState "a") "a").2 = true ↔
       (mapGet (openChannel initState "a").connections "a").isSome = true) ∧
     teardown (teardown (openChannel initState "a") "a").1 "a" =
       ((teardown (openChannel initState "a") "a").1, false)) :=
  ⟨by decide, by decide,
    C1_teardown_exactly_once (openChannel initState "a") "a" (by decide) (by decide)⟩

/-- Claim C2: a POST addressed to a registered session whose processing
throws is caught at the dispatcher boundary: a 500 response is written
when the response head is uncommitted, the error is only logged otherwise,
and in all cases the server state is unchanged — the session stays in the
registry and no connection is closed. -/
theorem C2_handler_failure_isolated (st : ServerState) (sid : String)
    (t : Transport) (res : ResponseState) (sentBefore : Bool) (nsid : String)
    (hs : mapGet st.sessions sid = some t) :
    (handleSSEConnection st { method := .POST, sessionId := some sid } res nsid
        (.postProcessing sentBefore)).state = st ∧
    (handleSSEConnection st { method := .POST, sessionId := some sid } res nsid
        (.postProcessing sentBefore)).closedConn = false ∧
    (handleSSEConnection st { method := .POST, sessionId := some sid } res nsid
        (.postProcessing sentBefore)).writes =
      (if res.headersSent || sentBefore then [] else [500]) ∧
    mapGet (handleSSEConnection st { method := .POST, sessionId := some sid } res nsid
        (.postProcessing sentBefore)).state.sessions sid = some t := by
  cases hb : res.headersSent || sentBefore with
  | true => simp [handleSSEConnection, hs, hb]
  | false => simp [handleSSEConnection, hs, hb]

/-- Concrete instance of claim C2: session `"a"` open, processing of a
POST to it throws before anything was written. -/
theorem C2_witness :
    mapGet (openChannel initState "a").sessions "a" =
      some { tid := 0, boundInstance := some 1 } ∧
    ((handleSSEConnection (openChannel initState "a")
        { method := .POST, sessionId := some "a" } { headersSent := false } ""
        (.postProcessing false)).state = openChannel initState "a" ∧
     (handleSSEConnection (openChannel initState "a")
        { method := .POST, sessionId := some "a" } { headersSent := false } ""
        (.postProcessing false)).closedConn = false ∧
     (handleSSEConnection (openChannel initState "a")
        { method := .POST, sessionId := some "a" } { headersSent := false } ""
        (.postProcessing false)).writes =
       (if ({ headersSent := false } : ResponseState).headersSent || false
        then [] else [500]) ∧
     mapGet (handleSSEConnection (openChannel initState "a")
        { method := .POST, sessionId := some "a" } { headersSent := false } ""
        (.postProcessing false)).state.sessions "a" =
       some { tid := 0, boundInstance := some 1 }) :=
  ⟨by decide,
    C2_handler_failure_isolated (openChannel initState "a") "a"
      { tid := 0, boundInstance := some 1 } { headersSent := false } false ""
      (by decide)⟩

/-- Claim C4: a push-channel open (GET) that fails before registration
creates no session: the state (both maps) is unchanged, and the handler
writes a 500 error status exactly when response headers have not been
sent, otherwise it writes nothing (the error is only logged). -/
theorem C4_get_failure_before_register (st : ServerState) (q : Option String)
    (res : ResponseState) (nsid : String) :
    handleSSEConnection st { method := .GET, sessionId := q } res nsid
        .getBeforeRegister =
      { state := st,
        writes := if res.headersSent then [] else [500],
        delivered := none,
        closedConn := false } := by
  cases hb : res.headersSent with
  | true => simp [handleSSEConnection, hb]
  | false => simp [handleSSEConnection, hb]

/-- Claim C5: a POST carrying a session id absent from the registry gets a
404 response, is delivered to no server instance, and leaves the state
unchanged. -/
theorem C5_unknown_session (st : ServerState) (sid : String)
    (res : ResponseState) (nsid : String) (fp : FailurePoint)
    (habs : mapGet st.sessions sid = none) :
    handleSSEConnection st { method := .POST, sessionId := some sid } res nsid fp =
      { state := st, writes := [404], delivered := none, closedConn := false } := by
  simp [handleSSEConnection, habs]

/-- Concrete instance of claim C5: a POST with an unregistered session id
against the fresh state. -/
theorem C5_witness :
    mapGet initState.sessions "unknown-123" = none ∧
    handleSSEConnection initState { method := .POST, sessionId := some "unknown-123" }
        { headersSent := false } "" .noFailure =
      { state := initState, writes := [404], delivered := none,
        closedConn := false } :=
  ⟨by decide,
    C5_unknown_session initState "unknown-123" { headersSent := false } ""
      .noFailure (by decide)⟩

/-- Claim C6: a POST with no sessionId query parameter gets a 400 response,
is delivered to nothing, and the handler neither reads nor changes the
registry: the result is the same constant answer over every state, with
the state passed through unchanged. -/
theorem C6_missing_session_id (st : ServerState) (res : ResponseState)
    (nsid : String) (fp : FailurePoint) :
    handleSSEConnection st { method := .POST, sessionId := none } res nsid fp =
      { state := st, writes := [400], delivered := none, closedConn := false } := by
  simp [handleSSEConnection]

/-- Claim C3 counterexample: opening a second channel whose generated
session id `"s"` is already registered does not fail with any
DuplicateSession condition — `sessions.set` silently replaces the first
transport (tid 0, instance 1) with the new one (tid 2, instance 3), and
the GET handler reports no error. -/
theorem C3_counterexample :
    mapGet (openChannel initState "s").sessions "s" =
      some { tid := 0, boundInstance := some 1 } ∧
    mapGet (openChannel (openChannel initState "s") "s").sessions "s" =
      some { tid := 2, boundInstance := some 3 } ∧
    mapSize (openChannel (openChannel initState "s") "s").sessions = 1 ∧
    (handleSSEConnection (openChannel initState "s")
        { method := .GET, sessionId := none } { headersSent := false } "s"
        .noFailure).writes = [] := by
  decide

/-- Claim C3 as amended: inserting a session under an id that is already
present does not fail — `Map.set` silently replaces the existing entry in
place — and the registry still holds at most one session per id: the key
list and the registry size are unchanged by the duplicate insert. -/
theorem C3_amended_duplicate_insert_replaces (st : ServerState) (sid : String)
    (t : Transport) (h : mapGet st.sessions sid = some t) :
    mapGet (openChannel st sid).sessions sid =
      some { tid := st.nextId, boundInstance := some (st.nextId + 1) } ∧
    mapKeys (openChannel st sid).sessions = mapKeys st.sessions ∧
    mapSize (openChannel st sid).sessions = mapSize st.sessions := by
  have hsome : (mapGet st.sessions sid).isSome := by rw [h]; rfl
  have hsess : (openChannel st sid).sessions =
      mapSet st.sessions sid { tid := st.nextId, boundInstance := some (st.nextId + 1) } := rfl
  refine ⟨?_, ?_, ?_⟩
  · rw [hsess]
    exact mapGet_mapSet_self _ _ _
  · rw [hsess]
    exact mapKeys_mapSet_present _ _ _ hsome
  · rw [hsess, mapSize_eq_keys_length, mapSize_eq_keys_length,
      mapKeys_mapSet_present _ _ _ hsome]

/-- Concrete instance of amended claim C3: duplicate insert of `"s"`. -/
theorem C3_witness :
    mapGet (openChannel initState "s").sessions "s" =
      some { tid := 0, boundInstance := some 1 } ∧
    (mapGet (openChannel (openChannel initState "s") "s").sessions "s" =
      some { tid := (openChannel initState "s").nextId,
             boundInstance := some ((openChannel initState "s").nextId + 1) } ∧
     mapKeys (openChannel (openChannel initState "s") "s").sessions =
       mapKeys (openChannel initState "s").sessions ∧
     mapSize (openChannel (openChannel initState "s") "s").sessions =
       mapSize (openChannel initState "s").sessions) :=
  ⟨by decide,
    C3_amended_duplicate_insert_replaces (openChannel initState "s") "s"
      { tid := 0, boundInstance := some 1 } (by decide)⟩

/-- Claim C7: every successful push-channel open binds a freshly
constructed server instance 1:1 to the new session.  Opening `s1` and then
`s2 ≠ s1` yields distinct instances, both distinct from every instance
already bound before; a POST dispatched to `s1` is delivered to `s1`'s
instance and one to `s2` to `s2`'s instance, never crossing over. -/
theorem C7_instance_isolation (st : ServerState) (s1 s2 : String)
    (hne : s1 ≠ s2)
    (hfresh : ∀ p ∈ st.connections, p.2 < st.nextId) :
    mapGet (openChannel (openChannel st s1) s2).connections s1 =
      some (st.nextId + 1) ∧
    mapGet (openChannel (openChannel st s1) s2).connections s2 =
      some (st.nextId + 3) ∧
    st.nextId + 1 ≠ st.nextId + 3 ∧
    (∀ p ∈ st.connections, p.2 ≠ st.nextId + 1 ∧ p.2 ≠ st.nextId + 3) ∧
    (handleSSEConnection (openChannel (openChannel st s1) s2)
        { method := .POST, sessionId := some s1 } { headersSent := false } ""
        .noFailure).delivered = some (st.nextId + 1) ∧
    (handleSSEConnection (openChannel (openChannel st s1) s2)
        { method := .POST, sessionId := some s2 } { headersSent := false } ""
        .noFailure).delivered = some (st.nextId + 3) := by
  have hconn2 : (openChannel (openChannel st s1) s2).connections =
      mapSet (mapSet st.connections s1 (st.nextId + 1)) s2 (st.nextId + 3) := rfl
  have hsess2 : (openChannel (openChannel st s1) s2).sessions =
      mapSet (mapSet st.sessions s1 { tid := st.nextId, boundInstance := some (st.nextId + 1) })
        s2 { tid := st.nextId + 2, boundInstance := some (st.nextId + 3) } := rfl
  have hget1 : mapGet (openChannel (openChannel st s1) s2).sessions s1 =
      some { tid := st.nextId, boundInstance := some (st.nextId + 1) } := by
    rw [hsess2, mapGet_mapSet_ne _ _ _ _ hne, mapGet_mapSet_self]
  have hget2 : mapGet (openChannel (openChannel st s1) s2).sessions s2 =
      some { tid := st.nextId + 2, boundInstance := some (st.nextId + 3) } := by
    rw [hsess2, mapGet_mapSet_self]
  refine ⟨?_, ?_, by omega, ?_, ?_, ?_⟩
  · rw [hconn2, mapGet_mapSet_ne _ _ _ _ hne, mapGet_mapSet_self]
  · rw [hconn2, mapGet_mapSet_self]
  · intro p hp
    have := hfresh p hp
    omega
  · simp [handleSSEConnection, hget1]
  · simp [handleSSEConnection, hget2]

/-- Concrete instance of claim C7: two channels opened from the fresh
state under ids `"a"` and `"b"`. -/
theorem C7_witness :
    "a" ≠ "b" ∧
    (∀ p ∈ initState.connections, p.2 < initState.nextId) ∧
    (mapGet (openChannel (openChannel initState "a") "b").connections "a" =
      some (initState.nextId + 1) ∧
     mapGet (openChannel (openChannel initState "a") "b").connections "b" =
      some (initState.nextId + 3) ∧
     initState.nextId + 1 ≠ initState.nextId + 3 ∧
     (∀ p ∈ initState.connections, p.2 ≠ initState.nextId + 1 ∧ p.2 ≠ initState.nextId + 3) ∧
     (handleSSEConnection (openChannel (openChannel initState "a") "b")
        { method := .POST, sessionId := some "a" } { headersSent := false } ""
        .noFailure).delivered = some (initState.nextId + 1) ∧
     (handleSSEConnection (openChannel (openChannel initState "a") "b")
        { method := .POST, sessionId := some "b" } { headersSent := false } ""
        .noFailure).delivered = some (initState.nextId + 3)) :=
  ⟨by decide, by decide,
    C7_instance_isolation initState "a" "b" (by decide) (by decide)⟩

/-- Claim C8 counterexample: the POST path that answers a request with no
sessionId writes its 400 status unconditionally — even on a response whose
headers are already committed (`headersSent = true`) the handler still
issues the write, so that path performs no headers-sent check before
writing. -/
theorem C8_counterexample :
    (handleSSEConnection initState { method := .POST, sessionId := none }
        { headersSent := true } "x" .noFailure).writes = [400] := by
  decide

/-- Claim C8 as amended: only the 500 server-error paths check
`headersSent` before writing; the 400/404/405 client-error writes are
unconditional.  Still, on every path the handler body writes the response
head at most once, and a 500 is written only when the response head was
not committed at handler entry. -/
theorem C8_amended_single_write (st : ServerState) (req : Request)
    (res : ResponseState) (nsid : String) (fp : FailurePoint) :
    (handleSSEConnection st req res nsid fp).writes.length ≤ 1 ∧
    (res.headersSent = true →
      ¬(500 ∈ (handleSSEConnection st req res nsid fp).writes)) := by
  cases req with
  | mk method sid =>
    cases method with
    | GET =>
      cases fp with
      | noFailure => simp [handleSSEConnection]
      | getBeforeRegister =>
        cases hb : res.headersSent <;> simp [handleSSEConnection, hb]
      | postProcessing sb => simp [handleSSEConnection]
    | POST =>
      cases sid with
      | none => simp [handleSSEConnection]
      | some s =>
        cases hg : mapGet st.sessions s with
        | none => simp [handleSSEConnection, hg]
        | some t =>
          cases fp with
          | noFailure => simp [handleSSEConnection, hg]
          | getBeforeRegister => simp [handleSSEConnection, hg]
          | postProcessing sb =>
            cases hb : res.headersSent <;> cases sb <;>
              simp [handleSSEConnection, hg, hb]
    | other => simp [handleSSEConnection]

/-- Concrete instance of amended claim C8 at a POST with a missing session
id on a fresh response. -/
theorem C8_witness :
    (handleSSEConnection initState { method := .POST, sessionId := none }
        { headersSent := false } "x" .noFailure).writes.length ≤ 1 ∧
    (({ headersSent := false } : ResponseState).headersSent = true →
      ¬(500 ∈ (handleSSEConnection initState { method := .POST, sessionId := none }
        { headersSent := false } "x" .noFailure).writes)) :=
  C8_amended_single_write initState { method := .POST, sessionId := none }
    { headersSent := false } "x" .noFailure

/-! ## Session counting -/

theorem openChannel_sessions (st : ServerState) (sid : String) :
    (openChannel st sid).sessions =
      mapSet st.sessions sid { tid := st.nextId, boundInstance := some (st.nextId + 1) } :=
  rfl

theorem openAll_keys (sids : List String) : ∀ st : ServerState, sids.Nodup →
    (∀ s ∈ sids, mapGet st.sessions s = none) →
    mapKeys (openAll st sids).sessions = mapKeys st.sessions ++ sids := by
  induction sids with
  | nil =>
    intro st _ _
    simp [openAll]
  | cons s rest ih =>
    intro st hnd hfresh
    have h1 : mapGet st.sessions s = none := hfresh s (by simp)
    have step : mapKeys (openChannel st s).sessions = mapKeys st.sessions ++ [s] := by
      rw [openChannel_sessions]
      exact mapKeys_mapSet_absent _ _ _ h1
    have hfresh' : ∀ x ∈ rest, mapGet (openChannel st s).sessions x = none := by
      intro x hx
      have hxs : x ≠ s := by
        intro hc
        exact (List.nodup_cons.mp hnd).1 (hc ▸ hx)
      rw [openChannel_sessions, mapGet_mapSet_ne _ _ _ _ hxs]
      exact hfresh x (by simp [hx])
    have hrec := ih (openChannel st s) (List.nodup_cons.mp hnd).2 hfresh'
    rw [show openAll st (s :: rest) = openAll (openChannel st s) rest from rfl,
      hrec, step, List.append_assoc, List.singleton_append]

theorem teardownAll_size (ks : List String) : ∀ st : ServerState,
    ks.Nodup → (mapKeys st.sessions).Nodup →
    (∀ k ∈ ks, (mapGet st.sessions k).isSome) →
    mapSize (teardownAll st ks).sessions = mapSize st.sessions - ks.length := by
  induction ks with
  | nil =>
    intro st _ _ _
    simp [teardownAll]
  | cons k rest ih =>
    intro st hnd hsnd hmem
    have h1 : (mapGet st.sessions k).isSome := hmem k (by simp)
    have hsz : mapSize (teardown st k).1.sessions = mapSize st.sessions - 1 := by
      rw [teardown_sessions]
      exact mapSize_mapDelete_present _ _ hsnd h1
    have hnd' : (mapKeys (teardown st k).1.sessions).Nodup := by
      rw [teardown_sessions, mapKeys_mapDelete]
      exact hsnd.filter _
    have hmem' : ∀ x ∈ rest, (mapGet (teardown st k).1.sessions x).isSome := by
      intro x hx
      have hxk : x ≠ k := by
        intro hc
        exact (List.nodup_cons.mp hnd).1 (hc ▸ hx)
      rw [teardown_sessions, mapGet_mapDelete_ne _ _ _ hxk]
      exact hmem x (by simp [hx])
    have hrec := ih (teardown st k).1 (List.nodup_cons.mp hnd).2 hnd' hmem'
    rw [show teardownAll st (k :: rest) = teardownAll (teardown st k).1 rest from rfl,
      hrec, hsz, List.length_cons]
    omega

/-- Claim C9: `GET /health` returns `status = "healthy"`, the server name
`"MCP Documentation Server"` and version `"1.0.0"` from serverConfig.ts,
the supplied timestamp, and an active-session count equal to the registry
size; after `N` distinct fresh opens followed by `k` distinct disconnects
of opened sessions the reported count is `N − k`, regardless of order. -/
theorem C9_health_reports_sessions (now : String)
    (sids ks : List String) (h1 : sids.Nodup) (h2 : ks.Nodup)
    (h3 : ∀ k ∈ ks, k ∈ sids) :
    healthHandler (teardownAll (openAll initState sids) ks) now =
      { status := "healthy",
        server := "MCP Documentation Server",
        version := "1.0.0",
        timestamp := now,
        transport := "sse",
        activeSessions := sids.length - ks.length } ∧
    (healthHandler (teardownAll (openAll initState sids) ks) now).activeSessions =
      mapSize (teardownAll (openAll initState sids) ks).sessions := by
  have hfresh0 : ∀ s ∈ sids, mapGet initState.sessions s = none := by
    intro s _
    rfl
  have hkeys : mapKeys (openAll initState sids).sessions = sids := by
    rw [openAll_keys sids initState h1 hfresh0]
    rfl
  have hndopen : (mapKeys (openAll initState sids).sessions).Nodup := by
    rw [hkeys]
    exact h1
  have hmem : ∀ k ∈ ks, (mapGet (openAll initState sids).sessions k).isSome := by
    intro k hk
    have hk' : k ∈ mapKeys (openAll initState sids).sessions := by
      rw [hkeys]
      exact h3 k hk
    exact mapGet_isSome_of_mem_keys _ _ hk'
  have hsz : mapSize (teardownAll (openAll initState sids) ks).sessions =
      sids.length - ks.length := by
    rw [teardownAll_size ks (openAll initState sids) h2 hndopen hmem,
      mapSize_eq_keys_length, hkeys]
  constructor
  · simp [healthHandler, serverConfig, hsz]
  · rfl

/-- Concrete instance of claim C9: three opens (`"a"`, `"b"`, `"c"`)
followed by one disconnect (`"b"`); the reported count is `3 − 1`. -/
theorem C9_witness :
    (["a", "b", "c"] : List String).Nodup ∧
    (["b"] : List String).Nodup ∧
    (∀ k ∈ (["b"] : List String), k ∈ (["a", "b", "c"] : List String)) ∧
    (healthHandler (teardownAll (openAll initState ["a", "b", "c"]) ["b"]) "t" =
      { status := "healthy",
        server := "MCP Documentation Server",
        version := "1.0.0",
        timestamp := "t",
        transport := "sse",
        activeSessions := (["a", "b", "c"] : List String).length -
          (["b"] : List String).length } ∧
     (healthHandler (teardownAll (openAll initState ["a", "b", "c"]) ["b"]) "t").activeSessions =
       mapSize (teardownAll (openAll initState ["a", "b", "c"]) ["b"]).sessions) :=
  ⟨by decide, by decide, by decide,
    C9_health_reports_sessions "t" ["a", "b", "c"] ["b"]
      (by decide) (by decide) (by decide)⟩

/-! ## CLI lemmas -/

theorem parseStep_host (arg : String) (o o' : CLIOptions)
    (h : parseStep arg o = .cont o') : o'.host = o.host := by
  simp only [parseStep] at h
  repeat' split at h
  all_goals cases h
  all_goals rfl

theorem parseArgsFrom_host (args : List String) : ∀ o o' : CLIOptions,
    parseArgsFrom args o = .ok o' → o'.host = o.host := by
  induction args with
  | nil =>
    intro o o' h
    cases h
    rfl
  | cons a rest ih =>
    intro o o' h
    simp only [parseArgsFrom] at h
    cases hs : parseStep a o with
    | cont o1 =>
      rw [hs] at h
      rw [ih o1 o' h]
      exact parseStep_host a o o1 hs
    | fail e =>
      rw [hs] at h
      exact Except.noConfusion h

theorem parseStep_unknown (arg : String) (o : CLIOptions)
    (hdash : startsWithDash arg = true)
    (hkey : argKey arg ≠ "--transport" ∧ argKey arg ≠ "-t" ∧
            argKey arg ≠ "--port" ∧ argKey arg ≠ "-p" ∧
            argKey arg ≠ "--help") :
    parseStep arg o = .fail (.unknownOption arg) := by
  obtain ⟨k1, k2, k3, k4, k5⟩ := hkey
  have h1 : ¬(argKey arg = "--transport" ∨ argKey arg = "-t") := by
    rintro (hc | hc)
    · exact k1 hc
    · exact k2 hc
  have h2 : ¬(argKey arg = "--port" ∨ argKey arg = "-p") := by
    rintro (hc | hc)
    · exact k3 hc
    · exact k4 hc
  simp [parseStep, h1, h2, k5, hdash]

theorem parseArgsFrom_append (pre rest : List String) : ∀ o : CLIOptions,
    parseArgsFrom (pre ++ rest) o =
      match parseArgsFrom pre o with
      | .ok o' => parseArgsFrom rest o'
      | .error e => .error e := by
  induction pre with
  | nil =>
    intro o
    rfl
  | cons a pre ih =>
    intro o
    cases hs : parseStep a o with
    | cont o1 =>
      have l1 : parseArgsFrom (a :: (pre ++ rest)) o = parseArgsFrom (pre ++ rest) o1 := by
        simp only [parseArgsFrom, hs]
      have l2 : parseArgsFrom (a :: pre) o = parseArgsFrom pre o1 := by
        simp only [parseArgsFrom, hs]
      rw [List.cons_append, l1, l2]
      exact ih o1
    | fail e =>
      have l1 : parseArgsFrom (a :: (pre ++ rest)) o = .error e := by
        simp only [parseArgsFrom, hs]
      have l2 : parseArgsFrom (a :: pre) o = .error e := by
        simp only [parseArgsFrom, hs]
      rw [List.cons_append, l1, l2]

/-- Claim C10: `parseArgs` throws an "Unknown option" error for every
dash-prefixed argument whose part before `=` is none of `--transport`,
`-t`, `--port`, `-p`, `--help` (whenever the arguments before it parsed
without error); in particular the `--host` flag documented by `printHelp`
is rejected, and no successful parse ever sets the host option, so the
listening host can never be set from the command line. -/
theorem C10_unknown_option_rejected (pre post : List String) (o : CLIOptions)
    (arg : String)
    (hpre : parseArgsFrom pre cliDefault = .ok o)
    (hdash : startsWithDash arg = true)
    (hkey : argKey arg ≠ "--transport" ∧ argKey arg ≠ "-t" ∧
            argKey arg ≠ "--port" ∧ argKey arg ≠ "-p" ∧
            argKey arg ≠ "--help") :
    parseArgs (pre ++ arg :: post) = .error (.unknownOption arg) ∧
    parseArgs ["--transport=sse", "--port=8080", "--host", "0.0.0.0"] =
      .error (.unknownOption "--host") ∧
    (∀ args o', parseArgs args = .ok o' → o'.host = none) := by
  refine ⟨?_, by decide, ?_⟩
  · show parseArgsFrom (pre ++ arg :: post) cliDefault = _
    rw [parseArgsFrom_append pre (arg :: post) cliDefault, hpre]
    show parseArgsFrom (arg :: post) o = _
    simp only [parseArgsFrom, parseStep_unknown arg o hdash hkey]
  · intro args o' h
    rw [parseArgsFrom_host args cliDefault o' h]
    rfl

/-- Concrete instance of claim C10: `--host` as the first argument. -/
theorem C10_witness :
    parseArgsFrom [] cliDefault = .ok cliDefault ∧
    startsWithDash "--host" = true ∧
    (argKey "--host" ≠ "--transport" ∧ argKey "--host" ≠ "-t" ∧
     argKey "--host" ≠ "--port" ∧ argKey "--host" ≠ "-p" ∧
     argKey "--host" ≠ "--help") ∧
    (parseArgs ([] ++ "--host" :: ["0.0.0.0"]) = .error (.unknownOption "--host") ∧
     parseArgs ["--transport=sse", "--port=8080", "--host", "0.0.0.0"] =
       .error (.unknownOption "--host") ∧
     (∀ args o', parseArgs args = .ok o' → o'.host = none)) :=
  ⟨rfl, by decide, by decide,
    C10_unknown_option_rejected [] ["0.0.0.0"] cliDefault "--host" rfl
      (by decide) (by decide)⟩
